import Mathlib

/-!
Shallow embedding of `src/vector/layer.rs` (a safe wrapper over a native
vector-data engine's layer API) and proofs of its specification claims.

The wrapper's own control flow is translated function-by-function from the
Rust source.  The native engine is not part of the source tree; each engine
entry point the wrapper calls is represented either by an oracle parameter
(a function giving the status code / value the engine returns) or, where a
claim depends on the engine's documented state behaviour, by a small state
machine modelled from the spec's boundary contract (those definitions carry
a `Modelled from the spec:` doc comment).
-/

/-- OGRErr success status code (`OGRErr::OGRERR_NONE` in `gdal_sys`). -/
def OGRERR_NONE : Nat := 0

/-- OGRErr generic failure status code (`OGRErr::OGRERR_FAILURE` in `gdal_sys`). -/
def OGRERR_FAILURE : Nat := 6

/-- Embedding of `gdal_sys::OGREnvelope`: a plain 4-field axis-aligned bounding
box.  The wrapper performs no arithmetic on the coordinates (it only zero-fills
the struct and passes it to the engine to overwrite), so the coordinate values
are modelled as integers. -/
structure OGREnvelope where
  MinX : Int
  MaxX : Int
  MinY : Int
  MaxY : Int
deriving DecidableEq, Repr

/-- Embedding of `crate::errors::GdalError`, restricted to the variants this
module constructs: an engine status-code error carrying the name of the engine
call, a null-pointer error carrying the name of the engine call, and the
interior-NUL encoding error produced by `CString::new`. -/
inductive GdalError where
  | OgrError (err : Nat) (method_name : String)
  | NullPointerErr (method_name : String)
  | FfiNulError
deriving DecidableEq, Repr

/-- Embedding of `std::ffi::CString::new`: fails exactly when the argument
contains an interior NUL byte; otherwise the C string carries the same text. -/
def CString.new (s : String) : Except GdalError String :=
  if s.data.contains (Char.ofNat 0) then .error .FfiNulError else .ok s

/-- Modelled from the spec: the engine-side mutable state of one layer handle,
as far as the claims observe it — the layer's schema (the ordered list of
(field name, field type) descriptors), the active attribute filter, and the
sequential reading cursor. -/
structure EngineState where
  schema : List (String × Nat)
  attributeFilter : Option String
  cursor : Nat
deriving DecidableEq, Repr

/-- Embedding of the `Layer` struct (`src/vector/layer.rs:97`): the wrapper
stores the schema descriptor captured at construction.  (The raw handle and
the dataset lifetime marker have no observable content in the embedding.) -/
structure Layer where
  defn : List (String × Nat)
deriving DecidableEq, Repr

/-- Modelled from the spec: `OGR_L_GetLayerDefn` returns the handle's schema
at the moment of the call. -/
def OGR_L_GetLayerDefn (st : EngineState) : List (String × Nat) :=
  st.schema

/-- Embedding of `Layer::from_c_layer` (`src/vector/layer.rs:116`): fetch the
handle's schema via `OGR_L_GetLayerDefn` and store it in the wrapper. -/
def Layer.from_c_layer (st : EngineState) : Layer :=
  { defn := OGR_L_GetLayerDefn st }

/-- Embedding of the Rust cast `i as u64` on an `i64` value: two's-complement
reinterpretation, i.e. reduction modulo `2 ^ 64`. -/
def i64_as_u64 (i : Int) : Nat :=
  (i % (2 ^ 64)).toNat

/-- Embedding of `Layer::feature_count` (`src/vector/layer.rs:242`): the forced
engine count (`OGR_L_GetFeatureCount` with force = 1) cast to `u64` with no
sign check.  The oracle `getFeatureCount` maps the force flag to the `i64`
value the engine returns. -/
def Layer.feature_count (getFeatureCount : Nat → Int) : Nat :=
  i64_as_u64 (getFeatureCount 1)

/-- Embedding of `Layer::try_feature_count` (`src/vector/layer.rs:254`): the
cheap engine count (force = 0); a negative value yields `none`, otherwise
`some` of the value cast to `u64`. -/
def Layer.try_feature_count (getFeatureCount : Nat → Int) : Option Nat :=
  let rv := getFeatureCount 0
  if rv < 0 then none else some (i64_as_u64 rv)

/-- Embedding of `Layer::get_extent` (`src/vector/layer.rs:274`): forced extent
computation (force = 1); any non-success status is an `OgrError` naming
`OGR_L_GetExtent`.  The oracle `getExtent` maps the force flag to the status
code and the envelope the engine writes. -/
def Layer.get_extent (getExtent : Nat → Nat × OGREnvelope) : Except GdalError OGREnvelope :=
  let r := getExtent 1
  if r.1 ≠ OGRERR_NONE then .error (.OgrError r.1 "OGR_L_GetExtent")
  else .ok r.2

/-- Embedding of `Layer::try_get_extent` (`src/vector/layer.rs:301`):
best-effort extent (force = 0); `OGRERR_FAILURE` maps to `Ok none`, any other
non-success status to an error naming `OGR_L_GetExtent`, success to
`Ok (some envelope)`. -/
def Layer.try_get_extent (getExtent : Nat → Nat × OGREnvelope) :
    Except GdalError (Option OGREnvelope) :=
  let r := getExtent 0
  if r.1 = OGRERR_FAILURE then .ok none
  else if r.1 ≠ OGRERR_NONE then .error (.OgrError r.1 "OGR_L_GetExtent")
  else .ok (some r.2)

/-- Embedding of `LayerCaps` (`src/vector/layer.rs:18`): the closed set of 18
layer capability flags. -/
inductive LayerCaps where
  | OLCRandomRead
  | OLCSequentialWrite
  | OLCRandomWrite
  | OLCFastSpatialFilter
  | OLCFastFeatureCount
  | OLCFastGetExtent
  | OLCCreateField
  | OLCDeleteField
  | OLCReorderFields
  | OLCAlterFieldDefn
  | OLCTransactions
  | OLCDeleteFeature
  | OLCFastSetNextByIndex
  | OLCStringsAsUTF8
  | OLCIgnoreFields
  | OLCCreateGeomField
  | OLCCurveGeometries
  | OLCMeasuredGeometries
deriving DecidableEq, Repr

/-- Embedding of `LayerCaps::into_cstring` (`src/vector/layer.rs:59`): the
fixed variant-to-token translation table.  (The `CString::new(...).unwrap()`
in the source cannot panic because no token contains a NUL byte; that fact is
proved alongside the capability claim.) -/
def LayerCaps.into_cstring : LayerCaps → String
  | .OLCRandomRead => "RandomRead"
  | .OLCSequentialWrite => "SequentialWrite"
  | .OLCRandomWrite => "RandomWrite"
  | .OLCFastSpatialFilter => "FastSpatialFilter"
  | .OLCFastFeatureCount => "FastFeatureCount"
  | .OLCFastGetExtent => "FastGetExtent"
  | .OLCCreateField => "CreateField"
  | .OLCDeleteField => "DeleteField"
  | .OLCReorderFields => "ReorderFields"
  | .OLCAlterFieldDefn => "AlterFieldDefn"
  | .OLCTransactions => "Transactions"
  | .OLCDeleteFeature => "DeleteFeature"
  | .OLCFastSetNextByIndex => "FastSetNextByIndex"
  | .OLCStringsAsUTF8 => "StringsAsUTF8"
  | .OLCIgnoreFields => "IgnoreFields"
  | .OLCCreateGeomField => "CreateGeomField"
  | .OLCCurveGeometries => "CurveGeometries"
  | .OLCMeasuredGeometries => "MeasuredGeometries"

/-- Embedding of `Layer::has_capability` (`src/vector/layer.rs:183`): translate
the flag to its token, query the engine live (`OGR_L_TestCapability`, the
oracle `testCapability`), and compare the answer with 1. -/
def Layer.has_capability (testCapability : String → Int) (capability : LayerCaps) : Bool :=
  testCapability (LayerCaps.into_cstring capability) == 1

/-- Modelled from the spec: `OGR_L_SetAttributeFilter` — when the driver
accepts the predicate (decided by the oracle `parseOk`) it installs the filter
and resets the reading position and returns success; when the predicate is
syntactically invalid it returns a non-success status and leaves the layer's
filter state untouched. -/
def OGR_L_SetAttributeFilter (parseOk : String → Bool) (st : EngineState) (query : String) :
    Nat × EngineState :=
  if parseOk query then (OGRERR_NONE, { st with attributeFilter := some query, cursor := 0 })
  else (OGRERR_FAILURE, st)

/-- Embedding of `Layer::set_attribute_filter` (`src/vector/layer.rs:347`):
convert the query with `CString::new`, call `OGR_L_SetAttributeFilter`, and
surface a non-success status as an `OgrError` naming that call. -/
def Layer.set_attribute_filter (parseOk : String → Bool) (st : EngineState) (query : String) :
    Except GdalError Unit × EngineState :=
  match CString.new query with
  | .error e => (.error e, st)
  | .ok c_str =>
    let r := OGR_L_SetAttributeFilter parseOk st c_str
    if r.1 ≠ OGRERR_NONE then (.error (.OgrError r.1 "OGR_L_SetAttributeFilter"), r.2)
    else (.ok (), r.2)

/-- Embedding of the `FieldDefn` struct (`src/vector/layer.rs:414`): a detached
field descriptor, observed through the name and type it was created with. -/
structure FieldDefn where
  name : String
  field_type : Nat
deriving DecidableEq, Repr

/-- Embedding of `FieldDefn::new` (`src/vector/layer.rs:431`): convert the name
with `CString::new`, then call `OGR_Fld_Create`; a null result (the oracle
`fldCreateOk` answering false) is surfaced as a null-pointer error naming
`OGR_Fld_Create`. -/
def FieldDefn.new (fldCreateOk : String → Nat → Bool) (name : String) (field_type : Nat) :
    Except GdalError FieldDefn :=
  match CString.new name with
  | .error e => .error e
  | .ok c_str =>
    if fldCreateOk c_str field_type then .ok ⟨c_str, field_type⟩
    else .error (.NullPointerErr "OGR_Fld_Create")

/-- Modelled from the spec: `OGR_L_CreateField` — when the layer accepts the
field (decided by the oracle `accept`) the engine copies the definition into
the layer's schema and returns success; otherwise it returns a non-success
status and the schema is unchanged. -/
def OGR_L_CreateField (accept : String × Nat → Bool) (st : EngineState) (fd : String × Nat) :
    Nat × EngineState :=
  if accept fd then (OGRERR_NONE, { st with schema := st.schema ++ [fd] })
  else (OGRERR_FAILURE, st)

/-- Embedding of `FieldDefn::add_to_layer` (`src/vector/layer.rs:445`): call
`OGR_L_CreateField` and surface a non-success status as an `OgrError` whose
`method_name` is the string literal written in the source, which is
`"OGR_L_CreateFeature"`. -/
def FieldDefn.add_to_layer (accept : String × Nat → Bool) (st : EngineState) (fd : FieldDefn) :
    Except GdalError Unit × EngineState :=
  let r := OGR_L_CreateField accept st (fd.name, fd.field_type)
  if r.1 ≠ OGRERR_NONE then (.error (.OgrError r.1 "OGR_L_CreateFeature"), r.2)
  else (.ok (), r.2)

/-- Embedding of `Layer::create_defn_fields` (`src/vector/layer.rs:193`): for
each (name, type) tuple in order, build a `FieldDefn` and attach it to the
layer, returning at the first failure. -/
def Layer.create_defn_fields (fldCreateOk : String → Nat → Bool) (accept : String × Nat → Bool) :
    EngineState → List (String × Nat) → Except GdalError Unit × EngineState
  | st, [] => (.ok (), st)
  | st, fd :: rest =>
    match FieldDefn.new fldCreateOk fd.1 fd.2 with
    | .error e => (.error e, st)
    | .ok fdefn =>
      match FieldDefn.add_to_layer accept st fdefn with
      | (.error e, st') => (.error e, st')
      | (.ok _, st') => Layer.create_defn_fields fldCreateOk accept st' rest

/-- Embedding of `Layer::create_feature` (`src/vector/layer.rs:200`): build a
feature against the layer's schema (`featureNewErr` is the error
`Feature::new` reports, if any), attach the geometry with
`OGR_F_SetGeometryDirectly` (status `setGeometryDirectlyRv`), then push it
with `OGR_L_CreateFeature` (status `createFeatureRv`); each non-success status
becomes an `OgrError` naming the call that produced it. -/
def Layer.create_feature (featureNewErr : Option GdalError) (setGeometryDirectlyRv : Nat)
    (createFeatureRv : Nat) : Except GdalError Unit :=
  match featureNewErr with
  | some e => .error e
  | none =>
    if setGeometryDirectlyRv ≠ OGRERR_NONE then
      .error (.OgrError setGeometryDirectlyRv "OGR_F_SetGeometryDirectly")
    else if createFeatureRv ≠ OGRERR_NONE then
      .error (.OgrError createFeatureRv "OGR_L_CreateFeature")
    else .ok ()

/-- Embedding of the field-setting loop of `Layer::create_feature_fields`
(`src/vector/layer.rs:229`): set each (name, value) pair in order, stopping at
the first failing set.  The oracle `setFieldErr` gives the error, if any, that
`Feature::set_field` reports for a pair. -/
def set_fields_loop (setFieldErr : String → α → Option GdalError) :
    List (String × α) → Except GdalError Unit
  | [] => .ok ()
  | (fd, val) :: rest =>
    match setFieldErr fd val with
    | some e => .error e
    | none => set_fields_loop setFieldErr rest

/-- Embedding of `Layer::create_feature_fields` (`src/vector/layer.rs:221`):
build a feature (`featureNewErr`), set the geometry (`setGeometryErr`), set
each name/value pair of `field_names.zip values` in order, then create the
feature against the layer (`createErr`, a function of the feature's field
list).  The second component records the geometry and field list of the
feature handed to `Feature::create`, or `none` when `create` was never
reached. -/
def Layer.create_feature_fields (featureNewErr : Option GdalError)
    (setGeometryErr : Option GdalError) (setFieldErr : String → α → Option GdalError)
    (createErr : List (String × α) → Option GdalError)
    (geometry : Int) (field_names : List String) (values : List α) :
    Except GdalError Unit × Option (Int × List (String × α)) :=
  match featureNewErr with
  | some e => (.error e, none)
  | none =>
    match setGeometryErr with
    | some e => (.error e, none)
    | none =>
      let pairs := field_names.zip values
      match set_fields_loop setFieldErr pairs with
      | .error e => (.error e, none)
      | .ok _ =>
        match createErr pairs with
        | some e => (.error e, some (geometry, pairs))
        | none => (.ok (), some (geometry, pairs))

/-- Embedding of the `FeatureIterator` struct (`src/vector/layer.rs:372`),
observed through its size hint. -/
structure FeatureIterator where
  size_hint : Option Nat
deriving DecidableEq, Repr

/-- Embedding of `u64::try_into::<usize>()` followed by `.ok()` on a 64-bit
target: succeeds exactly when the value fits in `usize`. -/
def u64_try_into_usize (n : Nat) : Option Nat :=
  if n < 2 ^ 64 then some n else none

/-- Embedding of `FeatureIterator::_with_layer` (`src/vector/layer.rs:400`):
the size hint is `layer.try_feature_count().map(|s| s.try_into().ok()).flatten()`. -/
def FeatureIterator._with_layer (getFeatureCount : Nat → Int) : FeatureIterator :=
  { size_hint := (Layer.try_feature_count getFeatureCount).bind u64_try_into_usize }

/-- Modelled from the spec: `OGR_L_ResetReading` resets the layer's reading
cursor to the start. -/
def OGR_L_ResetReading (st : EngineState) : EngineState :=
  { st with cursor := 0 }

/-- Embedding of `Layer::reset_feature_reading` (`src/vector/layer.rs:334`). -/
def Layer.reset_feature_reading (st : EngineState) : EngineState :=
  OGR_L_ResetReading st

/-- Embedding of `Layer::features` (`src/vector/layer.rs:155`): reset the
reading cursor first, then construct the iterator. -/
def Layer.features (getFeatureCount : Nat → Int) (st : EngineState) :
    EngineState × FeatureIterator :=
  let st2 := Layer.reset_feature_reading st
  (st2, FeatureIterator._with_layer getFeatureCount)

/-- Embedding of `Iterator::size_hint` for `FeatureIterator`
(`src/vector/layer.rs:391`): a present hint is reported as an exact
lower/upper bound, an absent one as `(0, none)`. -/
def FeatureIterator.size_hint_impl (it : FeatureIterator) : Nat × Option Nat :=
  match it.size_hint with
  | some size => (size, some size)
  | none => (0, none)

/-- A (name, type) tuple for which both `FieldDefn::new` and
`FieldDefn::add_to_layer` succeed: the name has no interior NUL,
`OGR_Fld_Create` allocates, and the layer accepts the field. -/
def tupleOk (fldCreateOk : String → Nat → Bool) (accept : String × Nat → Bool)
    (fd : String × Nat) : Prop :=
  (Char.ofNat 0) ∉ fd.1.data ∧ fldCreateOk fd.1 fd.2 = true ∧ accept fd = true

instance (fldCreateOk : String → Nat → Bool) (accept : String × Nat → Bool)
    (fd : String × Nat) : Decidable (tupleOk fldCreateOk accept fd) := by
  unfold tupleOk
  infer_instance

/-- The error `create_defn_fields` surfaces for a failing tuple, by failure
point: the `CString::new` interior-NUL error, the `OGR_L_CreateField` status
error (carrying the method name the source writes, `"OGR_L_CreateFeature"`),
or the `OGR_Fld_Create` null-pointer error. -/
def firstError (fldCreateOk : String → Nat → Bool) (fd : String × Nat) : GdalError :=
  if fd.1.data.contains (Char.ofNat 0) then .FfiNulError
  else if fldCreateOk fd.1 fd.2 then .OgrError OGRERR_FAILURE "OGR_L_CreateFeature"
  else .NullPointerErr "OGR_Fld_Create"

/-- C1: for every layer, `try_get_extent` returns `Ok none` exactly when the
engine's extent call reports `OGRERR_FAILURE`; a success status yields
`Ok (some envelope)`; and any other non-success status is surfaced as an
engine error — the "absent" and "error" outcomes are never conflated. -/
theorem C1_try_get_extent_trichotomy (getExtent : Nat → Nat × OGREnvelope) :
    (Layer.try_get_extent getExtent = .ok none ↔ (getExtent 0).1 = OGRERR_FAILURE) ∧
    ((getExtent 0).1 = OGRERR_NONE →
      Layer.try_get_extent getExtent = .ok (some (getExtent 0).2)) ∧
    ((getExtent 0).1 ≠ OGRERR_FAILURE → (getExtent 0).1 ≠ OGRERR_NONE →
      Layer.try_get_extent getExtent
        = .error (.OgrError (getExtent 0).1 "OGR_L_GetExtent")) := by
  simp only [Layer.try_get_extent]
  refine ⟨?_, ?_, ?_⟩
  · split_ifs with h1 h2 <;> simp_all [OGRERR_FAILURE, OGRERR_NONE]
  · intro h
    rw [if_neg (by simp [h, OGRERR_FAILURE, OGRERR_NONE]), if_neg (by simp [h])]
  · intro h1 h2
    rw [if_neg h1, if_pos h2]

/-- Witness for C1 at a concrete success status. -/
theorem C1_witness :
    Layer.try_get_extent (fun _ => (OGRERR_NONE, ⟨1, 2, 3, 4⟩))
      = .ok (some ⟨1, 2, 3, 4⟩) :=
  (C1_try_get_extent_trichotomy (fun _ => (OGRERR_NONE, ⟨1, 2, 3, 4⟩))).2.1 rfl

/-- C2: for every layer, `try_feature_count` returns `none` if and only if the
engine's cheap (force = 0) count is negative; otherwise it returns `some` of
that value as an unsigned count. -/
theorem C2_try_feature_count_negative_sentinel (getFeatureCount : Nat → Int)
    (h : getFeatureCount 0 < 2 ^ 63) :
    (Layer.try_feature_count getFeatureCount = none ↔ getFeatureCount 0 < 0) ∧
    (0 ≤ getFeatureCount 0 →
      Layer.try_feature_count getFeatureCount = some (getFeatureCount 0).toNat) := by
  simp only [Layer.try_feature_count, i64_as_u64]
  constructor
  · split_ifs with h0 <;> simp_all
  · intro h0
    have hm : getFeatureCount 0 % 2 ^ 64 = getFeatureCount 0 :=
      Int.emod_eq_of_lt h0 (by omega)
    rw [if_neg (by omega), hm]

/-- Witness for C2 at the concrete cheap count 5. -/
theorem C2_witness :
    Layer.try_feature_count (fun _ => (5 : Int)) = some 5 :=
  (C2_try_feature_count_negative_sentinel (fun _ => (5 : Int)) (by norm_num)).2
    (by norm_num)

/-- C10: `feature_count` reinterprets the engine's signed forced count as a
`u64` with no sign check: a negative engine value in the `i64` range comes
back as that value modulo `2 ^ 64` (a count of at least `2 ^ 63`), not as an
error or an absence, while the same negative value is detected as the
absence sentinel by `try_feature_count`. -/
theorem C10_feature_count_unchecked_cast (getFeatureCount : Nat → Int)
    (h1 : -(2 ^ 63) ≤ getFeatureCount 1) (h2 : getFeatureCount 1 < 0) :
    Layer.feature_count getFeatureCount = (getFeatureCount 1 + 2 ^ 64).toNat ∧
    2 ^ 63 ≤ Layer.feature_count getFeatureCount ∧
    (getFeatureCount 0 = getFeatureCount 1 →
      Layer.try_feature_count getFeatureCount = none) := by
  simp only [Layer.feature_count, Layer.try_feature_count, i64_as_u64]
  have hp : (2 : Int) ^ 64 = 18446744073709551616 := by norm_num
  have hq : (2 : Int) ^ 63 = 9223372036854775808 := by norm_num
  have hm : getFeatureCount 1 % 2 ^ 64 = getFeatureCount 1 + 2 ^ 64 := by
    rw [hp] at *
    rw [hq] at h1
    omega
  refine ⟨by rw [hm], ?_, ?_⟩
  · rw [hm]
    rw [hp, hq] at *
    omega
  · intro h0
    rw [h0, if_pos h2]

/-- Witness for C10 at the concrete forced count -1. -/
theorem C10_witness :
    Layer.feature_count (fun _ => (-1 : Int)) = 18446744073709551615 ∧
    Layer.try_feature_count (fun _ => (-1 : Int)) = none := by
  have h := C10_feature_count_unchecked_cast (fun _ => (-1 : Int)) (by norm_num) (by norm_num)
  refine ⟨?_, h.2.2 rfl⟩
  rw [h.1]
  rfl

/-- C6: `has_capability` translates each of the 18 `LayerCaps` variants to its
fixed, case-sensitive ASCII token, queries the engine live with that token,
and returns a boolean that is true exactly when the engine answers 1; it is a
total boolean function (it never returns an error), and no token contains a
NUL byte, so the `CString::new(...).unwrap()` in the source cannot panic. -/
theorem C6_has_capability_token_table (testCapability : String → Int) :
    (∀ cap : LayerCaps,
      (Layer.has_capability testCapability cap = true ↔
        testCapability (LayerCaps.into_cstring cap) = 1) ∧
      (LayerCaps.into_cstring cap).data.contains (Char.ofNat 0) = false) ∧
    LayerCaps.into_cstring .OLCRandomRead = "RandomRead" ∧
    LayerCaps.into_cstring .OLCSequentialWrite = "SequentialWrite" ∧
    LayerCaps.into_cstring .OLCRandomWrite = "RandomWrite" ∧
    LayerCaps.into_cstring .OLCFastSpatialFilter = "FastSpatialFilter" ∧
    LayerCaps.into_cstring .OLCFastFeatureCount = "FastFeatureCount" ∧
    LayerCaps.into_cstring .OLCFastGetExtent = "FastGetExtent" ∧
    LayerCaps.into_cstring .OLCCreateField = "CreateField" ∧
    LayerCaps.into_cstring .OLCDeleteField = "DeleteField" ∧
    LayerCaps.into_cstring .OLCReorderFields = "ReorderFields" ∧
    LayerCaps.into_cstring .OLCAlterFieldDefn = "AlterFieldDefn" ∧
    LayerCaps.into_cstring .OLCTransactions = "Transactions" ∧
    LayerCaps.into_cstring .OLCDeleteFeature = "DeleteFeature" ∧
    LayerCaps.into_cstring .OLCFastSetNextByIndex = "FastSetNextByIndex" ∧
    LayerCaps.into_cstring .OLCStringsAsUTF8 = "StringsAsUTF8" ∧
    LayerCaps.into_cstring .OLCIgnoreFields = "IgnoreFields" ∧
    LayerCaps.into_cstring .OLCCreateGeomField = "CreateGeomField" ∧
    LayerCaps.into_cstring .OLCCurveGeometries = "CurveGeometries" ∧
    LayerCaps.into_cstring .OLCMeasuredGeometries = "MeasuredGeometries" := by
  refine ⟨?_, rfl, rfl, rfl, rfl, rfl, rfl, rfl, rfl, rfl, rfl, rfl, rfl, rfl, rfl,
    rfl, rfl, rfl, rfl⟩
  intro cap
  constructor
  · simp [Layer.has_capability]
  · cases cap <;> decide

/-- Witness for C6 with a concrete engine answer. -/
theorem C6_witness :
    Layer.has_capability (fun _ => 1) .OLCCreateField = true :=
  ((C6_has_capability_token_table (fun _ => 1)).1 .OLCCreateField).1.mpr rfl

/-- C7: `features` resets the reading cursor to the start and constructs the
iterator with a size hint filled from `try_feature_count`; when the hint is
present the iterator's `size_hint` reports it as exact lower and upper bound
`(n, some n)`, and otherwise reports `(0, none)`. -/
theorem C7_features_reset_and_size_hint (getFeatureCount : Nat → Int) (st : EngineState)
    (h : getFeatureCount 0 < 2 ^ 63) :
    (Layer.features getFeatureCount st).1 = { st with cursor := 0 } ∧
    (∀ n, Layer.try_feature_count getFeatureCount = some n →
      ((Layer.features getFeatureCount st).2).size_hint_impl = (n, some n)) ∧
    (Layer.try_feature_count getFeatureCount = none →
      ((Layer.features getFeatureCount st).2).size_hint_impl = (0, none)) := by
  refine ⟨rfl, ?_, ?_⟩
  · intro n hn
    have hlt : n < 2 ^ 64 := by
      simp only [Layer.try_feature_count, i64_as_u64] at hn
      split_ifs at hn with h0
      simp only [Option.some.injEq] at hn
      have hmod : getFeatureCount 0 % (2 : Int) ^ 64 = getFeatureCount 0 :=
        Int.emod_eq_of_lt (by omega) (lt_of_lt_of_le h (by norm_num))
      have h2 : (getFeatureCount 0).toNat < 2 ^ 64 := by
        rw [Int.toNat_lt (by omega)]
        calc getFeatureCount 0 < 2 ^ 63 := h
        _ ≤ 2 ^ 64 := by norm_num
      calc n = (getFeatureCount 0 % 18446744073709551616).toNat := hn.symm
      _ = (getFeatureCount 0 % (2 : Int) ^ 64).toNat := by norm_num
      _ = (getFeatureCount 0).toNat := by rw [hmod]
      _ < 2 ^ 64 := h2
    have hb : u64_try_into_usize n = some n := by
      unfold u64_try_into_usize
      rw [if_pos hlt]
    simp [Layer.features, Layer.reset_feature_reading, OGR_L_ResetReading,
      FeatureIterator._with_layer, FeatureIterator.size_hint_impl, hn, hb]
  · intro hn
    simp [Layer.features, Layer.reset_feature_reading, OGR_L_ResetReading,
      FeatureIterator._with_layer, FeatureIterator.size_hint_impl, hn]

/-- Witness for C7 at the concrete cheap count 7 and cursor position 3. -/
theorem C7_witness :
    (Layer.features (fun _ => (7 : Int)) ⟨[], none, 3⟩).1 = ⟨[], none, 0⟩ ∧
    ((Layer.features (fun _ => (7 : Int)) ⟨[], none, 3⟩).2).size_hint_impl = (7, some 7) := by
  have h := C7_features_reset_and_size_hint (fun _ => (7 : Int)) ⟨[], none, 3⟩ (by norm_num)
  exact ⟨h.1, h.2.1 7 (by decide)⟩

/-- C4: calling `set_attribute_filter` with a syntactically invalid predicate
string (one the driver's parser rejects) returns an engine error naming
`OGR_L_SetAttributeFilter`, and the layer's previously active attribute
filter — indeed its whole engine-side state — is left unchanged. -/
theorem C4_set_attribute_filter_invalid_keeps_filter (parseOk : String → Bool)
    (st : EngineState) (query : String)
    (hq : query.data.contains (Char.ofNat 0) = false) (hbad : parseOk query = false) :
    (Layer.set_attribute_filter parseOk st query).1
      = .error (.OgrError OGRERR_FAILURE "OGR_L_SetAttributeFilter") ∧
    ((Layer.set_attribute_filter parseOk st query).2).attributeFilter
      = st.attributeFilter ∧
    (Layer.set_attribute_filter parseOk st query).2 = st := by
  simp only [Layer.set_attribute_filter, CString.new, hq, Bool.false_eq_true, if_false,
    OGR_L_SetAttributeFilter, hbad]
  refine ⟨?_, rfl, rfl⟩
  rw [if_pos (by decide)]

/-- Witness for C4: a layer with an active filter and a rejected predicate. -/
theorem C4_witness :
    (Layer.set_attribute_filter (fun _ => false) ⟨[], some "a = 1", 0⟩ "((").1
      = .error (.OgrError OGRERR_FAILURE "OGR_L_SetAttributeFilter") ∧
    ((Layer.set_attribute_filter (fun _ => false) ⟨[], some "a = 1", 0⟩ "((").2).attributeFilter
      = some "a = 1" := by
  have h := C4_set_attribute_filter_invalid_keeps_filter (fun _ => false)
    ⟨[], some "a = 1", 0⟩ "((" (by decide) rfl
  exact ⟨h.1, h.2.1⟩

/-- Processing one succeeding tuple appends the field to the engine schema
and continues with the remaining tuples. -/
theorem process_one_ok (fldCreateOk : String → Nat → Bool) (accept : String × Nat → Bool)
    (st : EngineState) (fd : String × Nat) (rest : List (String × Nat))
    (h : tupleOk fldCreateOk accept fd) :
    Layer.create_defn_fields fldCreateOk accept st (fd :: rest)
      = Layer.create_defn_fields fldCreateOk accept
          { st with schema := st.schema ++ [fd] } rest := by
  obtain ⟨h1, h2, h3⟩ := h
  simp [Layer.create_defn_fields, FieldDefn.new, CString.new, h1, h2,
    FieldDefn.add_to_layer, OGR_L_CreateField, h3, OGRERR_NONE]

/-- Processing one failing tuple stops with that tuple's error and leaves
the engine state unchanged, whatever tuples follow. -/
theorem process_one_bad (fldCreateOk : String → Nat → Bool) (accept : String × Nat → Bool)
    (st : EngineState) (fd : String × Nat) (rest : List (String × Nat))
    (h : ¬ tupleOk fldCreateOk accept fd) :
    Layer.create_defn_fields fldCreateOk accept st (fd :: rest)
      = (.error (firstError fldCreateOk fd), st) := by
  by_cases h1 : (Char.ofNat 0) ∈ fd.1.data
  · simp [Layer.create_defn_fields, FieldDefn.new, CString.new, firstError, h1]
  · by_cases h2 : fldCreateOk fd.1 fd.2 = true
    · have h3 : accept fd = false := by
        cases hb : accept fd
        · rfl
        · exact absurd ⟨h1, h2, hb⟩ h
      simp [Layer.create_defn_fields, FieldDefn.new, CString.new, h1, h2,
        FieldDefn.add_to_layer, OGR_L_CreateField, h3, firstError,
        OGRERR_NONE, OGRERR_FAILURE]
    · have h2f : fldCreateOk fd.1 fd.2 = false := by simpa using h2
      simp [Layer.create_defn_fields, FieldDefn.new, CString.new, h1, h2f, firstError]

/-- When every tuple succeeds, `create_defn_fields` appends all fields to
the engine schema in order and returns Ok. -/
theorem create_defn_fields_all_ok (fldCreateOk : String → Nat → Bool)
    (accept : String × Nat → Bool) :
    ∀ (fds : List (String × Nat)) (st : EngineState),
      (∀ fd ∈ fds, tupleOk fldCreateOk accept fd) →
      Layer.create_defn_fields fldCreateOk accept st fds
        = (.ok (), { st with schema := st.schema ++ fds }) := by
  intro fds
  induction fds with
  | nil =>
    intro st _
    simp [Layer.create_defn_fields]
  | cons fd rest ih =>
    intro st h
    rw [process_one_ok fldCreateOk accept st fd rest (h fd (by simp))]
    rw [ih { st with schema := st.schema ++ [fd] } (fun x hx => h x (by simp [hx]))]
    simp

/-- `create_defn_fields` returns Ok exactly when every tuple succeeds. -/
theorem create_defn_fields_ok_iff (fldCreateOk : String → Nat → Bool)
    (accept : String × Nat → Bool) :
    ∀ (fds : List (String × Nat)) (st : EngineState),
      ((Layer.create_defn_fields fldCreateOk accept st fds).1 = .ok () ↔
        ∀ fd ∈ fds, tupleOk fldCreateOk accept fd) := by
  intro fds
  induction fds with
  | nil =>
    intro st
    simp [Layer.create_defn_fields]
  | cons fd rest ih =>
    intro st
    by_cases h : tupleOk fldCreateOk accept fd
    · rw [process_one_ok fldCreateOk accept st fd rest h]
      simp [ih, h]
    · rw [process_one_bad fldCreateOk accept st fd rest h]
      simp [h]

/-- On the first failing tuple, `create_defn_fields` stops: the result is
that tuple's error and the engine schema extended by exactly the preceding
(succeeding) tuples, independent of what follows the failure. -/
theorem create_defn_fields_first_bad (fldCreateOk : String → Nat → Bool)
    (accept : String × Nat → Bool) :
    ∀ (good : List (String × Nat)) (st : EngineState) (bad : String × Nat)
      (rest : List (String × Nat)),
      (∀ fd ∈ good, tupleOk fldCreateOk accept fd) →
      ¬ tupleOk fldCreateOk accept bad →
      Layer.create_defn_fields fldCreateOk accept st (good ++ bad :: rest)
        = (.error (firstError fldCreateOk bad),
           { st with schema := st.schema ++ good }) := by
  intro good
  induction good with
  | nil =>
    intro st bad rest _ hbad
    rw [List.nil_append, process_one_bad fldCreateOk accept st bad rest hbad]
    simp
  | cons g gs ih =>
    intro st bad rest hgood hbad
    rw [List.cons_append, process_one_ok fldCreateOk accept st g (gs ++ bad :: rest)
      (hgood g (by simp))]
    rw [ih { st with schema := st.schema ++ [g] } bad rest
      (fun x hx => hgood x (by simp [hx])) hbad]
    simp

/-- C8: `create_defn_fields` builds and attaches one `FieldDefn` per (name,
type) tuple in order; it returns Ok exactly when every tuple succeeds (and
then the engine schema has gained all the fields, in order); at the first
failing tuple it stops — the result is the same as if the tuples after the
failure were absent — returns that tuple's failure, and the fields attached
before the failing tuple remain attached (no rollback). -/
theorem C8_create_defn_fields_first_failure (fldCreateOk : String → Nat → Bool)
    (accept : String × Nat → Bool) (st : EngineState) (fds : List (String × Nat)) :
    ((Layer.create_defn_fields fldCreateOk accept st fds).1 = .ok () ↔
      ∀ fd ∈ fds, tupleOk fldCreateOk accept fd) ∧
    ((∀ fd ∈ fds, tupleOk fldCreateOk accept fd) →
      Layer.create_defn_fields fldCreateOk accept st fds
        = (.ok (), { st with schema := st.schema ++ fds })) ∧
    (∀ good bad rest, fds = good ++ bad :: rest →
      (∀ fd ∈ good, tupleOk fldCreateOk accept fd) →
      ¬ tupleOk fldCreateOk accept bad →
      Layer.create_defn_fields fldCreateOk accept st fds
        = (.error (firstError fldCreateOk bad),
           { st with schema := st.schema ++ good }) ∧
      Layer.create_defn_fields fldCreateOk accept st fds
        = Layer.create_defn_fields fldCreateOk accept st (good ++ [bad])) := by
  refine ⟨create_defn_fields_ok_iff fldCreateOk accept fds st,
    fun h => create_defn_fields_all_ok fldCreateOk accept fds st h, ?_⟩
  intro good bad rest heq hgood hbad
  subst heq
  refine ⟨create_defn_fields_first_bad fldCreateOk accept good st bad rest hgood hbad, ?_⟩
  rw [create_defn_fields_first_bad fldCreateOk accept good st bad rest hgood hbad,
    create_defn_fields_first_bad fldCreateOk accept good st bad [] hgood hbad]

/-- Witness for C8: the second of three fields is rejected by the layer; the
first stays attached, the third is never attempted. -/
theorem C8_witness :
    Layer.create_defn_fields (fun _ _ => true) (fun fd => fd.1 == "a")
        ⟨[], none, 0⟩ [("a", 1), ("b", 2), ("c", 3)]
      = (.error (.OgrError OGRERR_FAILURE "OGR_L_CreateFeature"),
         ⟨[("a", 1)], none, 0⟩) := by
  have h := (C8_create_defn_fields_first_failure (fun _ _ => true) (fun fd => fd.1 == "a")
    ⟨[], none, 0⟩ [("a", 1), ("b", 2), ("c", 3)]).2.2 [("a", 1)] ("b", 2) [("c", 3)]
    rfl (by decide) (by decide)
  rw [h.1]
  rfl

/-- C9: the wrapper's schema descriptor is built exactly once, at wrapper
construction, from the handle's schema at that moment; `defn` is a pure
projection of that cached value, so every call returns the same descriptor;
subsequent operations act only on the engine state — after a bulk field
creation has grown the engine schema, the wrapper built earlier still holds
the construction-time descriptor, while a wrapper constructed from the
updated state captures the updated schema. -/
theorem C9_defn_cached_at_construction (st : EngineState) (fds : List (String × Nat))
    (h : ∀ fd ∈ fds, tupleOk (fun _ _ => true) (fun _ => true) fd) :
    (Layer.from_c_layer st).defn = OGR_L_GetLayerDefn st ∧
    (Layer.from_c_layer st).defn = st.schema ∧
    ((Layer.create_defn_fields (fun _ _ => true) (fun _ => true) st fds).2).schema
        = st.schema ++ fds ∧
    (Layer.from_c_layer
        ((Layer.create_defn_fields (fun _ _ => true) (fun _ => true) st fds).2)).defn
        = st.schema ++ fds := by
  have hall := create_defn_fields_all_ok (fun _ _ => true) (fun _ => true) fds st h
  refine ⟨rfl, rfl, ?_, ?_⟩
  · rw [hall]
  · rw [hall]
    rfl

/-- Witness for C9: a layer whose engine schema grows after construction. -/
theorem C9_witness :
    (Layer.from_c_layer ⟨[("x", 0)], none, 0⟩).defn = [("x", 0)] ∧
    ((Layer.create_defn_fields (fun _ _ => true) (fun _ => true) ⟨[("x", 0)], none, 0⟩
        [("a", 1)]).2).schema = [("x", 0), ("a", 1)] := by
  have h := C9_defn_cached_at_construction ⟨[("x", 0)], none, 0⟩ [("a", 1)] (by decide)
  refine ⟨h.2.1, ?_⟩
  rw [h.2.2.1]
  decide

/-- C5: `create_feature_fields` pairs field names to values strictly by
position via zip — exactly min(len names, len values) fields are set, and
extra names or values beyond the shorter list are silently ignored — and the
feature is handed to `Feature::create` only after the build, the geometry
set, and every paired field set succeeded; the whole call returns Ok exactly
when creation itself also succeeds. -/
theorem C5_create_feature_fields_zip_semantics
    (featureNewErr setGeometryErr : Option GdalError)
    (setFieldErr : String → α → Option GdalError)
    (createErr : List (String × α) → Option GdalError)
    (geometry : Int) (field_names : List String) (values : List α) :
    (field_names.zip values).length = min field_names.length values.length ∧
    (∀ i a b, field_names.get? i = some a → values.get? i = some b →
      (field_names.zip values).get? i = some (a, b)) ∧
    ((Layer.create_feature_fields featureNewErr setGeometryErr setFieldErr createErr
        geometry field_names values).2 ≠ none ↔
      (featureNewErr = none ∧ setGeometryErr = none ∧
        set_fields_loop setFieldErr (field_names.zip values) = .ok ())) ∧
    (∀ g fs, (Layer.create_feature_fields featureNewErr setGeometryErr setFieldErr createErr
        geometry field_names values).2 = some (g, fs) →
      g = geometry ∧ fs = field_names.zip values) ∧
    ((Layer.create_feature_fields featureNewErr setGeometryErr setFieldErr createErr
        geometry field_names values).1 = .ok () ↔
      (featureNewErr = none ∧ setGeometryErr = none ∧
        set_fields_loop setFieldErr (field_names.zip values) = .ok () ∧
        createErr (field_names.zip values) = none)) := by
  refine ⟨List.length_zip _ _, ?_, ?_, ?_, ?_⟩
  · intro i a b ha hb
    exact (List.get?_zip_eq_some _ _ (a, b) i).mpr ⟨ha, hb⟩
  · cases featureNewErr with
    | some e => simp [Layer.create_feature_fields]
    | none =>
      cases setGeometryErr with
      | some e => simp [Layer.create_feature_fields]
      | none =>
        cases hsf : set_fields_loop setFieldErr (field_names.zip values) with
        | error e => simp [Layer.create_feature_fields, hsf]
        | ok u =>
          cases u
          cases hc : createErr (field_names.zip values) with
          | none => simp [Layer.create_feature_fields, hsf, hc]
          | some e => simp [Layer.create_feature_fields, hsf, hc]
  · intro g fs
    cases featureNewErr with
    | some e => simp [Layer.create_feature_fields]
    | none =>
      cases setGeometryErr with
      | some e => simp [Layer.create_feature_fields]
      | none =>
        cases hsf : set_fields_loop setFieldErr (field_names.zip values) with
        | error e => simp [Layer.create_feature_fields, hsf]
        | ok u =>
          cases u
          cases hc : createErr (field_names.zip values) with
          | none =>
            simp only [Layer.create_feature_fields, hsf, hc, Option.some.injEq,
              Prod.mk.injEq]
            intro hgf
            exact ⟨hgf.1.symm, hgf.2.symm⟩
          | some e =>
            simp only [Layer.create_feature_fields, hsf, hc, Option.some.injEq,
              Prod.mk.injEq]
            intro hgf
            exact ⟨hgf.1.symm, hgf.2.symm⟩
  · cases featureNewErr with
    | some e => simp [Layer.create_feature_fields]
    | none =>
      cases setGeometryErr with
      | some e => simp [Layer.create_feature_fields]
      | none =>
        cases hsf : set_fields_loop setFieldErr (field_names.zip values) with
        | error e => simp [Layer.create_feature_fields, hsf]
        | ok u =>
          cases u
          cases hc : createErr (field_names.zip values) with
          | none => simp [Layer.create_feature_fields, hsf, hc]
          | some e => simp [Layer.create_feature_fields, hsf, hc]

/-- Witness for C5: three names zipped against two values set exactly the
two positionally paired fields and the call succeeds. -/
theorem C5_witness :
    (Layer.create_feature_fields none none (fun (_ : String) (_ : Nat) => none)
        (fun _ => none) 42 ["a", "b", "c"] [1, 2]).1 = .ok () ∧
    (["a", "b", "c"].zip [1, 2]).length = min 3 2 := by
  have h := C5_create_feature_fields_zip_semantics none none
    (fun (_ : String) (_ : Nat) => none) (fun _ => none) 42 ["a", "b", "c"] [1, 2]
  exact ⟨h.2.2.2.2.mpr ⟨rfl, rfl, rfl, rfl⟩, h.1⟩

/-- C3: the claim fails in the code.  `FieldDefn::add_to_layer` calls
`OGR_L_CreateField`, yet on failure the returned error names
`"OGR_L_CreateFeature"` — a different engine operation — so the error does
not carry the name of the engine call that actually failed.  (The other
operations the claim lists do name the failing call, as evaluated here for
`get_extent`, `try_get_extent`, `set_attribute_filter`, and both failure
points of `create_feature`.) -/
theorem C3_add_to_layer_misnamed_error :
    (FieldDefn.add_to_layer (fun _ => false) ⟨[], none, 0⟩ ⟨"a", 0⟩).1
      = .error (.OgrError OGRERR_FAILURE "OGR_L_CreateFeature") ∧
    "OGR_L_CreateFeature" ≠ "OGR_L_CreateField" ∧
    Layer.get_extent (fun _ => (OGRERR_FAILURE, ⟨0, 0, 0, 0⟩))
      = .error (.OgrError OGRERR_FAILURE "OGR_L_GetExtent") ∧
    Layer.try_get_extent (fun _ => (3, ⟨0, 0, 0, 0⟩))
      = .error (.OgrError 3 "OGR_L_GetExtent") ∧
    (Layer.set_attribute_filter (fun _ => false) ⟨[], none, 0⟩ "x").1
      = .error (.OgrError OGRERR_FAILURE "OGR_L_SetAttributeFilter") ∧
    Layer.create_feature none 3 0 = .error (.OgrError 3 "OGR_F_SetGeometryDirectly") ∧
    Layer.create_feature none 0 3 = .error (.OgrError 3 "OGR_L_CreateFeature") := by
  refine ⟨rfl, by decide, rfl, rfl, rfl, rfl, rfl⟩
